import Mathlib

/-!
Verification of the bouncing-blitz core simulation against its source.

The TypeScript source is shallowly embedded over exact rational arithmetic:
three.js vectors become rational triples, floating-point numbers become
rationals, and optional / defaulted TypeScript fields become Option values
with the exact JavaScript truthiness and defaulting rules of the source.
The embedded units are:
  - Platform.ts: the platform data model, its constructor defaults, the
    swept-sphere collision query with its static, swept and tunneling
    branches, the collision-normal and penetration computations;
  - PhysicsService (in DebugService.ts): the body store, sub-stepped
    integrator, and the floor / world-bound handler checkBounds;
  - GameEngine (the abstract engine): the fixed-timestep accumulator loop
    and the per-platform collision response and effect dispatch;
  - TrackEditorService (in BaseGameEngine.ts): validateTrack.
-/

namespace BouncingBlitz

attribute [local semireducible] Rat.add Rat.mul Rat.inv Rat.sub

/-- A 3-component vector (three.js Vector3) over exact rationals. -/
structure Vec3 where
  x : ℚ
  y : ℚ
  z : ℚ
deriving DecidableEq

instance : Add Vec3 := ⟨fun a b => ⟨a.x + b.x, a.y + b.y, a.z + b.z⟩⟩

instance : Sub Vec3 := ⟨fun a b => ⟨a.x - b.x, a.y - b.y, a.z - b.z⟩⟩

/-- Vector3.multiplyScalar. -/
def smul (s : ℚ) (v : Vec3) : Vec3 := ⟨s * v.x, s * v.y, s * v.z⟩

/-- Vector3.dot. -/
def dot3 (a b : Vec3) : ℚ := a.x * b.x + a.y * b.y + a.z * b.z

/-- Vector3.lengthSq: squared euclidean length, exact over the rationals. -/
def length2 (v : Vec3) : ℚ := v.x * v.x + v.y * v.y + v.z * v.z

def vzero : Vec3 := ⟨0, 0, 0⟩

/-- The largest k at most the first argument whose square is at most n,
by structural recursion (so that it reduces definitionally, unlike the
well-founded Nat.sqrt). -/
def natSqrtBelow : ℕ → ℕ → ℕ
  | 0, _ => 0
  | k + 1, n => if (k + 1) * (k + 1) ≤ n then k + 1 else natSqrtBelow k n

/-- Integer square root (rounded down). -/
def natSqrt (n : ℕ) : ℕ := natSqrtBelow n n

/-- Exact rational square root: on a nonnegative rational whose numerator and
denominator are perfect squares this is the true square root; elsewhere it
returns 0.  The source computes a floating-point square root; every theorem
below evaluates this function only at perfect squares (or quantifies over
the surrounding computation without depending on its value). -/
def qsqrt (q : ℚ) : ℚ :=
  if 0 ≤ q ∧ natSqrt q.num.toNat * natSqrt q.num.toNat = q.num.toNat
       ∧ natSqrt q.den * natSqrt q.den = q.den then
    (natSqrt q.num.toNat : ℚ) / (natSqrt q.den : ℚ)
  else 0

/-- Vector3.length. -/
def qlen (v : Vec3) : ℚ := qsqrt (length2 v)

/-- Vector3.normalize: three.js divides by the length when it is nonzero and
leaves the vector unchanged (divides by 1) when the length is 0. -/
def vnormalize (v : Vec3) : Vec3 :=
  let l := qsqrt (length2 v)
  if l = 0 then v else ⟨v.x / l, v.y / l, v.z / l⟩

/-- Math.sign. -/
def jsSign (q : ℚ) : ℚ := if 0 < q then 1 else if q < 0 then -1 else 0

/-- JavaScript truthiness of an optional numeric field: undefined and 0 are
falsy, every other number is truthy. -/
def jsTruthy (o : Option ℚ) : Bool :=
  match o with
  | some q => decide (q ≠ 0)
  | none => false

/-- JavaScript `a || d` defaulting for an optional numeric field: the default
is used when the field is undefined or 0 (0 is falsy). -/
def jsOrQ (o : Option ℚ) (d : ℚ) : ℚ :=
  match o with
  | some q => if q = 0 then d else q
  | none => d

/-- An axis-aligned bounding box (three.js Box3). -/
structure Box3 where
  min : Vec3
  max : Vec3
deriving DecidableEq

/-- PlatformType (Platform.ts). -/
inductive PlatformType where
  | normal
  | start
  | finish
  | checkpoint
  | boost
  | obstacle
  | bounce
deriving DecidableEq

/-- Movement axis of a kinematic platform. -/
inductive MoveAxis where
  | x
  | y
  | z
deriving DecidableEq

/-- PlatformConfig (Platform.ts): optional fields are Option, mirroring the
TypeScript optionals; the constructor applies the defaults. -/
structure PlatformConfig where
  width : ℚ
  depth : ℚ
  height : ℚ
  position : Vec3
  isMoving : Option Bool := none
  moveSpeed : Option ℚ := none
  moveDistance : Option ℚ := none
  moveAxis : Option MoveAxis := none
  ptype : Option PlatformType := none
  boostForce : Option ℚ := none
  bounceForce : Option ℚ := none
  checkpointIndex : Option ℚ := none
  isActive : Option Bool := none
deriving DecidableEq

/-- The platformEffect payload of a CollisionResult (Platform.ts). -/
structure PlatformEffect where
  boostForce : Option ℚ := none
  bounceForce : Option ℚ := none
  checkpointIndex : Option ℚ := none
deriving DecidableEq

/-- CollisionResult (Platform.ts). -/
structure CollisionResult where
  collides : Bool
  normal : Option Vec3 := none
  penetration : Option ℚ := none
  time : Option ℚ := none
  point : Option Vec3 := none
  platformType : Option PlatformType := none
  platformEffect : Option PlatformEffect := none
deriving DecidableEq

/-- The Platform class state after construction (Platform.ts).  Only the
mesh position ever changes among the geometric fields; the bounding box is
kept consistent with it. -/
structure Platform where
  width : ℚ
  height : ℚ
  depth : ℚ
  position : Vec3
  initialPosition : Vec3
  previousPosition : Vec3
  velocity : Vec3
  ptype : PlatformType
  boostForce : ℚ
  bounceForce : ℚ
  checkpointIndex : ℚ
  isActive : Bool
  isMoving : Bool
  moveSpeed : ℚ
  moveDistance : ℚ
  moveAxis : MoveAxis
  accumulatedTime : ℚ
  boundingBox : Box3
deriving DecidableEq

/-- Box3.setFromObject for an unrotated box mesh of the given dimensions at
the given position: the box is centred at the mesh position with half the
width/height/depth as half-extents. -/
def computeBoundingBox (pos : Vec3) (w h d : ℚ) : Box3 :=
  ⟨⟨pos.x - w/2, pos.y - h/2, pos.z - d/2⟩, ⟨pos.x + w/2, pos.y + h/2, pos.z + d/2⟩⟩

/-- The Platform constructor (Platform.ts, lines 69-111).  It performs no
validation of the dimensions: any width/height/depth, including zero and
negative values, is accepted.  Defaults follow the source exactly, including
the JavaScript || defaulting under which an explicit 0 is replaced by the
default (so a configured checkpointIndex of 0 is stored as -1). -/
def mkPlatform (config : PlatformConfig) : Platform :=
  { width := config.width
    height := config.height
    depth := config.depth
    position := config.position
    initialPosition := config.position
    previousPosition := config.position
    velocity := vzero
    ptype := config.ptype.getD PlatformType.normal
    boostForce := jsOrQ config.boostForce (3/2)
    bounceForce := jsOrQ config.bounceForce (3/2)
    checkpointIndex := jsOrQ config.checkpointIndex (-1)
    isActive := config.isActive.getD true
    isMoving := (config.isMoving.getD false) || false
    moveSpeed := jsOrQ config.moveSpeed 2
    moveDistance := jsOrQ config.moveDistance 2
    moveAxis := config.moveAxis.getD MoveAxis.y
    accumulatedTime := 0
    boundingBox := computeBoundingBox config.position config.width config.height config.depth }

/-- PhysicsService configuration (DebugService.ts, lines 453-458). -/
def gravity : ℚ := 20

def maxVelocity : ℚ := 30

def minBounceVelocity : ℚ := 1/10

def maxPredictionSteps : ℕ := 3

/-- A PhysicsObject of PhysicsService (DebugService.ts, lines 423-433),
with the sphere radius of its mesh geometry carried alongside since
checkBounds reads it from the mesh. -/
structure PhysBody where
  position : Vec3
  velocity : Vec3
  acceleration : Vec3
  mass : ℚ
  restitution : ℚ
  friction : ℚ
  radius : ℚ
  previousPosition : Vec3
  previousVelocity : Vec3
deriving DecidableEq

/-- PhysicsService.addObject (DebugService.ts, lines 476-522): builds the
physics object with nullish-coalescing defaults and gravity-only
acceleration.  It performs no validation of the mass: any value, including
zero and negative masses, is accepted and stored. -/
def addObject (meshPosition : Vec3) (radius : ℚ)
    (mass restitution friction : Option ℚ) : PhysBody :=
  { position := meshPosition
    velocity := vzero
    acceleration := ⟨0, -gravity, 0⟩
    mass := mass.getD 1
    restitution := restitution.getD (1/2)
    friction := friction.getD (1/5)
    radius := radius
    previousPosition := meshPosition
    previousVelocity := vzero }

/-- PhysicsService.updateObject (DebugService.ts, lines 617-629):
semi-implicit Euler with velocity clamping.  The length comparison of the
source is expressed through squares, which is exact; the clamping rescale
itself goes through the normalize embedding. -/
def updateObject (b : PhysBody) (deltaTime : ℚ) : PhysBody :=
  let v1 := b.velocity + smul deltaTime b.acceleration
  let v2 := if length2 v1 > maxVelocity * maxVelocity then smul maxVelocity (vnormalize v1) else v1
  { b with velocity := v2, position := b.position + smul deltaTime v2 }

/-- The hard-coded x/z world bound of checkBounds (DebugService.ts, line
665). -/
def bounds : ℚ := 10

/-- The floor-collision block of PhysicsService.checkBounds
(DebugService.ts, lines 639-662): when the lower extent of the sphere is
below y = 0 the position is snapped to the contact height; above the
minimum bounce threshold the vertical velocity reflects scaled by the
restitution and the horizontal components are scaled by one minus the
friction, otherwise the vertical velocity is zeroed. -/
def floorCheck (b : PhysBody) : PhysBody :=
  if b.position.y - b.radius < 0 then
    let pos1 : Vec3 := ⟨b.position.x, b.radius, b.position.z⟩
    if minBounceVelocity < |b.velocity.y| then
      { b with
          position := pos1
          velocity := ⟨b.velocity.x * (1 - b.friction), |b.velocity.y| * b.restitution,
                       b.velocity.z * (1 - b.friction)⟩ }
    else
      { b with position := pos1, velocity := ⟨b.velocity.x, 0, b.velocity.z⟩ }
  else b

/-- The x world-bound block of PhysicsService.checkBounds (DebugService.ts,
lines 666-669). -/
def xBoundCheck (b : PhysBody) : PhysBody :=
  if bounds < |b.position.x| then
    { b with
        position := ⟨jsSign b.position.x * bounds, b.position.y, b.position.z⟩
        velocity := ⟨b.velocity.x * (-b.restitution), b.velocity.y, b.velocity.z⟩ }
  else b

/-- The z world-bound block of PhysicsService.checkBounds (DebugService.ts,
lines 670-673). -/
def zBoundCheck (b : PhysBody) : PhysBody :=
  if bounds < |b.position.z| then
    { b with
        position := ⟨b.position.x, b.position.y, jsSign b.position.z * bounds⟩
        velocity := ⟨b.velocity.x, b.velocity.y, b.velocity.z * (-b.restitution)⟩ }
  else b

/-- PhysicsService.checkBounds (DebugService.ts, lines 634-674): the floor
block followed by the x and z world-bound blocks, in source order. -/
def checkBounds (b : PhysBody) : PhysBody := zBoundCheck (xBoundCheck (floorCheck b))

/-- The sub-step count of PhysicsService.update (DebugService.ts, lines
575-579): min(ceil(length(velocity) * deltaTime), maxPredictionSteps).
A nonpositive ceiling gives a loop that runs zero times in the source;
taking the nonnegative part here has the same effect. -/
def subStepCount (b : PhysBody) (deltaTime : ℚ) : ℕ :=
  min (⌈qlen b.velocity * deltaTime⌉.toNat) maxPredictionSteps

/-- PhysicsService.update for one object (DebugService.ts, lines 567-598):
record the previous state, compute the sub-step count, then run
updateObject followed by checkBounds that many times with deltaTime divided
by the count.  When the count is 0 the division of the source produces a
value that is never used because the loop body never runs; rational
division by zero returns 0 here, equally unused. -/
def physicsUpdate (b : PhysBody) (deltaTime : ℚ) : PhysBody :=
  let b0 := { b with previousPosition := b.position, previousVelocity := b.velocity }
  let n := subStepCount b deltaTime
  let subDelta := deltaTime / (n : ℚ)
  (fun s => checkBounds (updateObject s subDelta))^[n] b0

/-- The fixed time step of the game loop (GameEngine, line 56). -/
def fixedTimeStep : ℚ := 1/60

/-- The deltaTime capping of GameEngine.update (line 312):
cappedDeltaTime = Math.min(deltaTime, 0.1).  It is applied to the argument
of the fixed-rate update, not to the frame delta accumulated in gameLoop. -/
def capDeltaTime (deltaTime : ℚ) : ℚ := min deltaTime (1/10)

/-- The accumulator drain of GameEngine.gameLoop (lines 263-270): while the
accumulator is at least the fixed time step, run one fixed update and
subtract the step.  Returns the number of updates run and the remaining
accumulator. -/
def drain (acc : ℚ) : ℕ × ℚ :=
  if h : fixedTimeStep ≤ acc then
    let r := drain (acc - fixedTimeStep)
    (r.1 + 1, r.2)
  else (0, acc)
termination_by (⌈acc * 60⌉).toNat
decreasing_by
  have h1 : (1 : ℚ) ≤ acc * 60 := by
    have : (1 : ℚ)/60 ≤ acc := h
    nlinarith
  have h2 : ⌈(acc - fixedTimeStep) * 60⌉ = ⌈acc * 60⌉ - 1 := by
    have : (acc - fixedTimeStep) * 60 = acc * 60 - 1 := by
      unfold fixedTimeStep; ring
    rw [this, Int.ceil_sub_one]
  have h3 : (1 : ℤ) ≤ ⌈acc * 60⌉ := by
    exact_mod_cast Int.le_ceil_iff.mpr (by push_cast; linarith)
  omega

/-- One render frame of GameEngine.gameLoop (lines 255-305): the raw frame
delta is added to the accumulator with no cap, then the accumulator is
drained in fixed steps.  Returns the number of fixed updates run and the
final accumulator. -/
def gameLoopFrame (acc frameDelta : ℚ) : ℕ × ℚ := drain (acc + frameDelta)

/-- The per-body collision-response state of GameEngine.update. -/
structure BodyState where
  velocity : Vec3
  position : Vec3
  restitution : ℚ
deriving DecidableEq

/-- The per-platform collision response and effect dispatch of
GameEngine.update (lines 333-395), for one platform reporting the given
collision against one body: grounded flag from the normal, boost and bounce
effect dispatch (with JavaScript truthiness on the destructured forces),
then reflection, restitution scaling, penetration resolution, moving
platform carry, and grounded friction when the body moves into the surface.
The source's platform-velocity test length() > 0 is expressed through the
squared length, which is exact.  The checkpointIndex of the effect payload
is never read.  Returns the new body state and the isOnPlatform flag. -/
def resolveCollision (collision : CollisionResult) (platformVelocity : Vec3)
    (b : BodyState) : BodyState × Bool :=
  match collision.collides, collision.normal with
  | true, some normal =>
    let isOnPlatform := decide ((1:ℚ)/2 < normal.y)
    let v1 :=
      match collision.platformEffect with
      | some effect =>
        let va :=
          match effect.boostForce with
          | some boostForce =>
            if boostForce ≠ 0 then
              let moveDir := vnormalize b.velocity
              b.velocity + smul (boostForce * 10) moveDir
            else b.velocity
          | none => b.velocity
        match effect.bounceForce with
        | some bounceForce =>
          if bounceForce ≠ 0 then ⟨va.x, |va.y| * bounceForce * 2, va.z⟩ else va
        | none => va
      | none => b.velocity
    let d := dot3 v1 normal
    if d < 0 then
      let v2 := v1 + smul (-2 * d) normal
      let v3 := smul b.restitution v2
      let pos1 :=
        match collision.penetration with
        | some pen => if pen ≠ 0 then b.position + smul pen normal else b.position
        | none => b.position
      let v4 := if length2 platformVelocity > 0 then v3 + smul (8/10) platformVelocity else v3
      let v5 := if isOnPlatform then ⟨v4.x * (8/10), v4.y, v4.z * (8/10)⟩ else v4
      ({ velocity := v5, position := pos1, restitution := b.restitution }, isOnPlatform)
    else
      ({ b with velocity := v1 }, isOnPlatform)
  | _, _ => (b, false)

/-- Replace the checkpointIndex carried in the effect payload of a
collision result, leaving everything else unchanged. -/
def withCheckpointIndex (c : CollisionResult) (i : Option ℚ) : CollisionResult :=
  { c with platformEffect := c.platformEffect.map (fun e => { e with checkpointIndex := i }) }

/-- TrackEditorService.validateTrack (BaseGameEngine.ts source region, lines
697-744): scan the platform set recording whether a Start was seen, whether
a Finish was seen, and how many Checkpoints were collected, then require
hasStart, hasFinish and a positive checkpoint count. -/
def validateScan (state : Bool × Bool × ℕ) (p : Platform) : Bool × Bool × ℕ :=
  match p.ptype with
  | PlatformType.start => (true, state.2.1, state.2.2)
  | PlatformType.finish => (state.1, true, state.2.2)
  | PlatformType.checkpoint => (state.1, state.2.1, state.2.2 + 1)
  | _ => state

def validateTrack (platforms : List Platform) : Bool :=
  let s := platforms.foldl validateScan (false, false, 0)
  s.1 && s.2.1 && decide (0 < s.2.2)

/-! ## Theorems -/

lemma validateScan_foldl (ps : List Platform) (a b : Bool) (n : ℕ) :
    ps.foldl validateScan (a, b, n) =
      (a || ps.any (fun p => decide (p.ptype = PlatformType.start)),
       b || ps.any (fun p => decide (p.ptype = PlatformType.finish)),
       n + ps.countP (fun p => decide (p.ptype = PlatformType.checkpoint))) := by
  induction ps generalizing a b n with
  | nil => simp
  | cons p ps ih =>
    simp only [List.foldl_cons, List.any_cons, List.countP_cons]
    rw [ih]
    rcases p with ⟨_, _, _, _, _, _, _, pt, _, _, _, _, _, _, _, _, _, _⟩
    cases pt <;> (simp [validateScan]; try omega)

/-- A concrete platform of the given type, as built by the Platform
constructor from a minimal configuration. -/
def platformOfType (t : PlatformType) : Platform :=
  mkPlatform { width := 3, height := 1/2, depth := 3, position := vzero, ptype := some t }

/-- A platform set holding two Start platforms, one Finish and one
Checkpoint. -/
def twoStartTrack : List Platform :=
  [platformOfType PlatformType.start, platformOfType PlatformType.start,
   platformOfType PlatformType.finish, platformOfType PlatformType.checkpoint]

/-- C4 counterexample: a platform set with two Start platforms (together
with one Finish and one Checkpoint) passes validateTrack, although the
claim states that a set with two Start platforms fails. -/
theorem validateTrack_twoStarts :
    validateTrack twoStartTrack = true ∧
    twoStartTrack.countP (fun p => decide (p.ptype = PlatformType.start)) = 2 := by
  constructor
  · rfl
  · rfl

/-- C4 (amended): validateTrack returns true exactly when the platform set
contains at least one Start, at least one Finish and at least one
Checkpoint; it does not require the Start platform to be unique. -/
theorem validateTrack_iff (ps : List Platform) :
    validateTrack ps = true ↔
      ((∃ p ∈ ps, p.ptype = PlatformType.start) ∧
       (∃ p ∈ ps, p.ptype = PlatformType.finish) ∧
       (∃ p ∈ ps, p.ptype = PlatformType.checkpoint)) := by
  unfold validateTrack
  rw [validateScan_foldl]
  simp [List.any_eq_true, List.countP_pos_iff, and_assoc]

/-- C8: neither the Platform constructor nor PhysicsService.addObject
validates its configuration: a zero-width (degenerate) platform, a platform
with zero height and depth, and bodies with negative or zero mass are all
accepted and stored as given, with no error surfaced to the caller. -/
theorem constructionAcceptsInvalidConfig :
    (mkPlatform { width := 0, height := 1/2, depth := 3, position := vzero }).width = 0 ∧
    (mkPlatform { width := -2, height := 0, depth := 0, position := vzero }).height = 0 ∧
    (addObject vzero (1/2) (some (-1)) none none).mass = -1 ∧
    (addObject vzero (1/2) (some 0) none none).mass = 0 := by
  refine ⟨rfl, rfl, rfl, rfl⟩

lemma floorCheck_radius (b : PhysBody) : (floorCheck b).radius = b.radius := by
  unfold floorCheck
  split_ifs <;> rfl

lemma xBoundCheck_radius (b : PhysBody) : (xBoundCheck b).radius = b.radius := by
  unfold xBoundCheck
  split_ifs <;> rfl

lemma zBoundCheck_radius (b : PhysBody) : (zBoundCheck b).radius = b.radius := by
  unfold zBoundCheck
  split_ifs <;> rfl

lemma checkBounds_radius (b : PhysBody) : (checkBounds b).radius = b.radius := by
  unfold checkBounds
  rw [zBoundCheck_radius, xBoundCheck_radius, floorCheck_radius]

lemma updateObject_radius (b : PhysBody) (dt : ℚ) :
    (updateObject b dt).radius = b.radius := by
  simp only [updateObject]

lemma qlen_vzero : qlen vzero = 0 := by decide

/-- C9: a body whose velocity is exactly zero gets a sub-step count of 0,
so the sub-step loop of PhysicsService.update never runs and neither the
position nor the velocity of the body changes; in particular gravity is
never applied to a body at rest. -/
theorem updateAtRest (b : PhysBody) (dt : ℚ) (h : b.velocity = vzero) :
    subStepCount b dt = 0 ∧
    (physicsUpdate b dt).position = b.position ∧
    (physicsUpdate b dt).velocity = b.velocity := by
  have hq : qlen b.velocity = 0 := by rw [h]; exact qlen_vzero
  have hn : subStepCount b dt = 0 := by
    unfold subStepCount
    rw [hq]
    simp
  refine ⟨hn, ?_, ?_⟩ <;>
    · simp only [physicsUpdate, hn, Function.iterate_zero, id_eq]

/-- C9 witness: a freshly added body at rest under gravity is untouched by
a physics update. -/
theorem updateAtRest_witness :
    subStepCount (addObject ⟨0, 5, 0⟩ (1/2) none none none) (1/60) = 0 ∧
    (physicsUpdate (addObject ⟨0, 5, 0⟩ (1/2) none none none) (1/60)).position =
      (addObject ⟨0, 5, 0⟩ (1/2) none none none).position ∧
    (physicsUpdate (addObject ⟨0, 5, 0⟩ (1/2) none none none) (1/60)).velocity =
      (addObject ⟨0, 5, 0⟩ (1/2) none none none).velocity :=
  updateAtRest (addObject ⟨0, 5, 0⟩ (1/2) none none none) (1/60) rfl

lemma abs_jsSign_mul_ten (q : ℚ) (h : 10 < |q|) : |jsSign q * 10| ≤ 10 := by
  unfold jsSign
  rcases lt_trichotomy q 0 with hq | hq | hq
  · rw [if_neg (by linarith), if_pos hq]
    norm_num
  · subst hq
    simp at h
    linarith
  · rw [if_pos hq]
    norm_num

lemma floorCheck_y (b : PhysBody) : b.radius ≤ (floorCheck b).position.y := by
  unfold floorCheck
  split_ifs <;> first | exact le_refl _ | linarith

lemma xBoundCheck_x (b : PhysBody) : |(xBoundCheck b).position.x| ≤ 10 := by
  unfold xBoundCheck
  split_ifs with h
  · exact abs_jsSign_mul_ten _ h
  · exact le_of_not_lt h

lemma xBoundCheck_yz (b : PhysBody) :
    (xBoundCheck b).position.y = b.position.y ∧
    (xBoundCheck b).position.z = b.position.z := by
  unfold xBoundCheck
  split_ifs <;> exact ⟨rfl, rfl⟩

lemma zBoundCheck_z (b : PhysBody) : |(zBoundCheck b).position.z| ≤ 10 := by
  unfold zBoundCheck
  split_ifs with h
  · exact abs_jsSign_mul_ten _ h
  · exact le_of_not_lt h

lemma zBoundCheck_xy (b : PhysBody) :
    (zBoundCheck b).position.x = b.position.x ∧
    (zBoundCheck b).position.y = b.position.y := by
  unfold zBoundCheck
  split_ifs <;> exact ⟨rfl, rfl⟩

lemma checkBounds_invariant (b : PhysBody) :
    b.radius ≤ (checkBounds b).position.y ∧
    |(checkBounds b).position.x| ≤ 10 ∧
    |(checkBounds b).position.z| ≤ 10 := by
  unfold checkBounds
  refine ⟨?_, ?_, ?_⟩
  · rw [(zBoundCheck_xy _).2, (xBoundCheck_yz _).1]
    exact floorCheck_y b
  · rw [(zBoundCheck_xy _).1]
    exact xBoundCheck_x _
  · exact zBoundCheck_z _

lemma iterate_step_radius (g : ℚ) (k : ℕ) (s : PhysBody) :
    (((fun x => checkBounds (updateObject x g))^[k]) s).radius = s.radius := by
  induction k generalizing s with
  | zero => rfl
  | succ k ih =>
    rw [Function.iterate_succ_apply', checkBounds_radius, updateObject_radius, ih]

lemma iterate_step_invariant (g : ℚ) (k : ℕ) (s : PhysBody) (h : 0 < k) :
    s.radius ≤ (((fun x => checkBounds (updateObject x g))^[k]) s).position.y ∧
    |(((fun x => checkBounds (updateObject x g))^[k]) s).position.x| ≤ 10 ∧
    |(((fun x => checkBounds (updateObject x g))^[k]) s).position.z| ≤ 10 := by
  obtain ⟨m, rfl⟩ : ∃ m, k = m + 1 := ⟨k - 1, by omega⟩
  rw [Function.iterate_succ_apply']
  have h1 := checkBounds_invariant
    (updateObject (((fun x => checkBounds (updateObject x g))^[m]) s) g)
  rwa [updateObject_radius, iterate_step_radius] at h1

/-- C10: whenever PhysicsService.update runs at least one sub-step for a
body, the returned body sits at or above the floor (position.y at least the
sphere radius) and inside the hard-coded x/z world bounds of magnitude 10,
because every sub-step ends with checkBounds, which re-establishes all
three conditions. -/
theorem boundsInvariant (b : PhysBody) (dt : ℚ) (h : 0 < subStepCount b dt) :
    b.radius ≤ (physicsUpdate b dt).position.y ∧
    |(physicsUpdate b dt).position.x| ≤ 10 ∧
    |(physicsUpdate b dt).position.z| ≤ 10 := by
  simp only [physicsUpdate]
  exact iterate_step_invariant (dt / ((subStepCount b dt : ℕ) : ℚ)) (subStepCount b dt)
    { b with previousPosition := b.position, previousVelocity := b.velocity } h

/-- A body moving downward at unit speed, used to witness the bounds
invariant. -/
def fallingBody : PhysBody :=
  { position := ⟨0, 5, 0⟩
    velocity := ⟨0, -1, 0⟩
    acceleration := ⟨0, -gravity, 0⟩
    mass := 1
    restitution := 7/10
    friction := 1/10
    radius := 1/2
    previousPosition := ⟨0, 5, 0⟩
    previousVelocity := vzero }

/-- C10 witness: a falling body performs one sub-step over a one-second
update and ends on or above the floor and inside the world bounds. -/
theorem boundsInvariant_witness :
    fallingBody.radius ≤ (physicsUpdate fallingBody 1).position.y ∧
    |(physicsUpdate fallingBody 1).position.x| ≤ 10 ∧
    |(physicsUpdate fallingBody 1).position.z| ≤ 10 :=
  boundsInvariant fallingBody 1 (by decide)

/-- A body below the floor that is simultaneously outside the x world
bound. -/
def outOfBoundsBody : PhysBody :=
  { position := ⟨20, 3/10, 0⟩
    velocity := ⟨1, -2, 0⟩
    acceleration := ⟨0, -gravity, 0⟩
    mass := 1
    restitution := 1/2
    friction := 1/10
    radius := 1/2
    previousPosition := vzero
    previousVelocity := vzero }

/-- C2 counterexample: for a body whose lower extent is below the floor
while its x position is outside the 10-unit world bound, the same
checkBounds call both applies the floor friction and then reflects
velocity.x with the restitution, so the final velocity.x is not the
claimed velocity.x times one minus the friction. -/
theorem floorHandling_outOfBounds :
    outOfBoundsBody.position.y - outOfBoundsBody.radius < 0 ∧
    minBounceVelocity < |outOfBoundsBody.velocity.y| ∧
    (checkBounds outOfBoundsBody).velocity.x = -(9/20) ∧
    (checkBounds outOfBoundsBody).velocity.x ≠
      outOfBoundsBody.velocity.x * (1 - outOfBoundsBody.friction) := by
  decide

/-- C2 (amended): for a body whose lower extent crosses y = 0 and whose x
and z positions are inside the 10-unit world bounds, checkBounds snaps
position.y to the radius; above the minimum bounce threshold it sets
velocity.y to its absolute value times the restitution and scales
velocity.x and velocity.z by one minus the friction, otherwise it zeroes
velocity.y and leaves the horizontal velocity unchanged. -/
theorem floorHandling (b : PhysBody) (h : b.position.y - b.radius < 0)
    (hx : |b.position.x| ≤ 10) (hz : |b.position.z| ≤ 10) :
    (checkBounds b).position = ⟨b.position.x, b.radius, b.position.z⟩ ∧
    (minBounceVelocity < |b.velocity.y| →
      (checkBounds b).velocity =
        ⟨b.velocity.x * (1 - b.friction), |b.velocity.y| * b.restitution,
         b.velocity.z * (1 - b.friction)⟩) ∧
    (¬ minBounceVelocity < |b.velocity.y| →
      (checkBounds b).velocity = ⟨b.velocity.x, 0, b.velocity.z⟩) := by
  by_cases hb : minBounceVelocity < |b.velocity.y|
  · simp only [checkBounds, floorCheck, xBoundCheck, zBoundCheck, bounds,
      if_pos h, if_pos hb, if_neg (not_lt.mpr hx), if_neg (not_lt.mpr hz)]
    exact ⟨by trivial, fun _ => by trivial, fun hn => absurd hb hn⟩
  · simp only [checkBounds, floorCheck, xBoundCheck, zBoundCheck, bounds,
      if_pos h, if_neg hb, if_neg (not_lt.mpr hx), if_neg (not_lt.mpr hz)]
    exact ⟨by trivial, fun hyes => absurd hyes hb, fun _ => by trivial⟩

/-- A body just below the floor inside the world bounds. -/
def belowFloorBody : PhysBody :=
  { position := ⟨0, 1/4, 0⟩
    velocity := ⟨2, -3, 1⟩
    acceleration := ⟨0, -gravity, 0⟩
    mass := 1
    restitution := 1/2
    friction := 1/10
    radius := 1/2
    previousPosition := vzero
    previousVelocity := vzero }

/-- C2 witness: the amended floor-handling statement applied to a body
just below the floor inside the world bounds. -/
theorem floorHandling_witness :
    (checkBounds belowFloorBody).position =
      ⟨belowFloorBody.position.x, belowFloorBody.radius, belowFloorBody.position.z⟩ ∧
    (minBounceVelocity < |belowFloorBody.velocity.y| →
      (checkBounds belowFloorBody).velocity =
        ⟨belowFloorBody.velocity.x * (1 - belowFloorBody.friction),
         |belowFloorBody.velocity.y| * belowFloorBody.restitution,
         belowFloorBody.velocity.z * (1 - belowFloorBody.friction)⟩) ∧
    (¬ minBounceVelocity < |belowFloorBody.velocity.y| →
      (checkBounds belowFloorBody).velocity =
        ⟨belowFloorBody.velocity.x, 0, belowFloorBody.velocity.z⟩) :=
  floorHandling belowFloorBody (by decide) (by decide) (by decide)

lemma drain_count (acc : ℚ) : (drain acc).1 = (⌊acc * 60⌋).toNat := by
  induction acc using drain.induct with
  | case1 acc h ih =>
    rw [drain]
    simp only [dif_pos h]
    rw [ih]
    have h60 : (1 : ℚ) ≤ acc * 60 := by
      unfold fixedTimeStep at h
      linarith
    have hfl : ⌊(acc - fixedTimeStep) * 60⌋ = ⌊acc * 60⌋ - 1 := by
      have heq : (acc - fixedTimeStep) * 60 = acc * 60 - (1 : ℤ) := by
        unfold fixedTimeStep
        push_cast
        ring
      rw [heq, Int.floor_sub_int]
    have hge : (1 : ℤ) ≤ ⌊acc * 60⌋ := by
      rw [Int.le_floor]
      exact_mod_cast h60
    rw [hfl]
    omega
  | case2 acc h =>
    rw [drain]
    simp only [dif_neg h]
    have hlt : acc * 60 < 1 := by
      unfold fixedTimeStep at h
      push_neg at h
      linarith
    have : ⌊acc * 60⌋ < (1 : ℤ) := by
      rw [Int.floor_lt]
      exact_mod_cast hlt
    omega

/-- C5 counterexample: a single render frame that arrives after a one
second stall performs 60 fixed updates, not the at most 6 which would
follow from the claimed 0.1-second cap on the accumulated frame delta. -/
theorem accumulatorUncapped :
    (gameLoopFrame 0 1).1 = 60 ∧ ¬((gameLoopFrame 0 1).1 ≤ 6) := by
  unfold gameLoopFrame
  rw [drain_count]
  norm_num
  decide

/-- C5 (amended): the game loop accumulates the raw, uncapped frame delta
and performs floor((accumulator + frameDelta) * 60) fixed updates, a count
unbounded in the frame delta; the 0.1-second cap of the source is applied
inside the fixed update to its own constant argument, where it is a no-op,
so every fixed update still sees dt = fixedTimeStep = 1/60. -/
theorem fixedStepLoop (acc frameDelta : ℚ) :
    (gameLoopFrame acc frameDelta).1 = (⌊(acc + frameDelta) * 60⌋).toNat ∧
    capDeltaTime fixedTimeStep = fixedTimeStep := by
  refine ⟨drain_count (acc + frameDelta), ?_⟩
  unfold capDeltaTime fixedTimeStep
  norm_num

/-- The collision record of a side contact with a Bounce platform. -/
def sideBounceCollision : CollisionResult :=
  { collides := true
    normal := some ⟨1, 0, 0⟩
    penetration := some (1/20)
    platformType := some PlatformType.bounce
    platformEffect := some { bounceForce := some (3/2) } }

/-- A body moving into that side contact. -/
def sideMovingBody : BodyState :=
  { velocity := ⟨-5, -2, 0⟩, position := vzero, restitution := 1/2 }

/-- C3 counterexample: on a side contact with a Bounce platform
(bounceForce 1.5), the bounce effect first sets velocity.y to
abs(-2) * 1.5 * 2 = 6, but the body still moves into the surface, so the
reflection step scales the whole velocity, including the bounce result, by
the restitution 0.5: the exit vertical velocity is 3, not the claimed 6. -/
theorem bounceScaledByRestitution :
    ((resolveCollision sideBounceCollision vzero sideMovingBody).1.velocity).y = 3 ∧
    |sideMovingBody.velocity.y| * (3/2) * 2 = 6 ∧
    ((resolveCollision sideBounceCollision vzero sideMovingBody).1.velocity).y ≠
      |sideMovingBody.velocity.y| * (3/2) * 2 := by
  decide

/-- C3 (amended): the bounce effect sets velocity.y to
abs(velocity.y) * bounceForce * 2 during effect dispatch; when the body is
afterwards not moving into the surface (as for a top contact with normal
(0,1,0) and positive bounceForce), no reflection or restitution scaling
follows and this is exactly the exit vertical velocity; on contacts where
the body still moves into the surface, the reflection step afterwards
scales the whole velocity, including this component, by the restitution. -/
theorem bounceEffectTopContact (c : CollisionResult) (pv : Vec3) (b : BodyState)
    (eff : PlatformEffect) (bf : ℚ)
    (hc : c.collides = true) (hn : c.normal = some ⟨0, 1, 0⟩)
    (he : c.platformEffect = some eff) (hbo : eff.boostForce = none)
    (hbf : eff.bounceForce = some bf) (hpos : 0 < bf) :
    ((resolveCollision c pv b).1.velocity).y = |b.velocity.y| * bf * 2 := by
  rcases c with ⟨collides, normal, pen, time, point, ptype, effOpt⟩
  simp only at hc hn he
  subst hc hn he
  simp only [resolveCollision, hbo, hbf]
  have hne : bf ≠ 0 := ne_of_gt hpos
  simp only [if_pos hne]
  have hd : dot3 ⟨b.velocity.x, |b.velocity.y| * bf * 2, b.velocity.z⟩ ⟨0, 1, 0⟩ =
      |b.velocity.y| * bf * 2 := by
    simp [dot3]
  rw [hd]
  have hnn : ¬ (|b.velocity.y| * bf * 2 < 0) := by
    have : 0 ≤ |b.velocity.y| * bf * 2 := by positivity
    linarith
  rw [if_neg hnn]

/-- The collision record of a top contact with a Bounce platform. -/
def topBounceCollision : CollisionResult :=
  { collides := true
    normal := some ⟨0, 1, 0⟩
    penetration := some (1/20)
    platformType := some PlatformType.bounce
    platformEffect := some { bounceForce := some (3/2) } }

/-- A body falling onto that top contact. -/
def fallingBounceBody : BodyState :=
  { velocity := ⟨1, -4, 0⟩, position := vzero, restitution := 7/10 }

/-- C3 witness: a body falling at vertical speed 4 onto a Bounce platform
top face exits with vertical velocity 4 * 1.5 * 2 = 12. -/
theorem bounceEffectTopContact_witness :
    ((resolveCollision topBounceCollision vzero fallingBounceBody).1.velocity).y =
      |fallingBounceBody.velocity.y| * (3/2) * 2 :=
  bounceEffectTopContact topBounceCollision vzero fallingBounceBody
    { bounceForce := some (3/2) } (3/2) rfl rfl rfl rfl rfl (by norm_num)

/-- C6: the collision response of GameEngine.update is entirely
independent of the checkpointIndex carried in the effect payload: changing
that index changes nothing in the resolved body state, because the
response reads only the boostForce and bounceForce fields and no code path
notifies any collaborator of the index. -/
theorem checkpointIndexUnread (c : CollisionResult) (pv : Vec3) (b : BodyState)
    (i : Option ℚ) :
    resolveCollision (withCheckpointIndex c i) pv b = resolveCollision c pv b := by
  rcases c with ⟨collides, normal, pen, time, point, ptype, effOpt⟩
  cases effOpt with
  | none => rfl
  | some eff =>
    rcases eff with ⟨bo, bn, ci⟩
    cases collides <;> cases normal <;> rfl

end BouncingBlitz
